import Mathlib

/-!
Verification of the PostgreSQL migration core of isso (`isso/db_psql/__init__.py`):
the versioned migration engine (`PSQL.migrate`), the open-time sequence
(`PSQL.__init__`), the version read/write primitives (`PSQL.version`,
`PSQL.set_version`), and the orphan-reaper trigger.

The relational store is embedded as an explicit record of table flags and row
lists; SQL statements become pure functions on that record.  Statement
execution and transaction commit/rollback follow psycopg2 `with connect()`
semantics: a transaction that raises contributes nothing to the persisted
state and the exception propagates.

The three migration step bodies are a sqlite3→psycopg2 port that retains
sqlite-only idioms (`?` placeholders handed straight to `cursor.execute`,
`con.total_changes`, chaining `.fetchall()` on `cursor.execute`'s return
value, which is `None` under psycopg2), so each step body deterministically
raises inside its transaction; the steps are therefore embedded as the
errors they raise, with their transaction-local effects discarded.
-/

namespace IssoPsql

/-- A row of the `threads` table: `id SERIAL PRIMARY KEY, uri, title`. -/
structure ThreadRow where
  id : Nat
  uri : String
  title : String
  deriving DecidableEq, Repr

/-- A row of the `comments` table (the columns the migration core touches):
`id`, `tid` (thread reference), `parent` (nullable comment reference),
`voters` (opaque bitset blob, modelled as a string).
Modelled from the spec for the column set: `comments.py` is not among the
sources; §3 of the spec gives `{id, thread_id, parent_id nullable, voters}`. -/
structure CommentRow where
  id : Nat
  tid : Nat
  parent : Option Nat
  voters : String
  deriving DecidableEq, Repr

/-- A row of the `preferences` table: `{key, value}`. -/
structure PrefRow where
  key : String
  value : String
  deriving DecidableEq, Repr

/-- The configuration source, reduced to the single value the core reads:
`[general] session-key` (`conf.has_option` / `conf.get`). -/
structure Config where
  sessionKey : Option String
  deriving DecidableEq, Repr

/-- The persisted state of the store.  Boolean flags record which tables
exist (the `pg_tables` probe in `PSQL.__init__` and `CREATE TABLE IF NOT
EXISTS`); `trigger` records whether the orphan-reaper trigger is installed. -/
structure DB where
  threadsT : Bool
  commentsT : Bool
  prefsT : Bool
  versionsT : Bool
  threads : List ThreadRow
  comments : List CommentRow
  prefs : List PrefRow
  versions : List Int
  trigger : Bool
  deriving DecidableEq, Repr

/-- Errors surfaced by statement execution: psycopg2 exceptions and the
Python `TypeError`/`AttributeError` the ported step bodies raise. -/
inductive DbErr where
  /-- querying a relation that does not exist -/
  | relationMissing : String → DbErr
  /-- Python `TypeError`: comparing `None >= int` in `migrate` -/
  | noneComparison : DbErr
  /-- Python `TypeError`: sqlite-style `?` placeholders plus a parameter
      tuple handed to psycopg2 (`not all arguments converted during string
      formatting`) -/
  | typeErrorPlaceholder : DbErr
  /-- Python `AttributeError`, naming the missing attribute: a sqlite3-only
      idiom used on a psycopg2 object (`total_changes` on the connection;
      `fetchall` on the `None` that `cursor.execute` returns) -/
  | attributeError : String → DbErr
  deriving DecidableEq, Repr

/-- `SELECT MAX(version) FROM versions` over the row list: `none` = SQL NULL
(empty table). -/
def listMax (l : List Int) : Option Int :=
  l.foldl (fun acc x =>
    match acc with
    | none => some x
    | some m => some (max m x)) none

/-- `PSQL.version`: `SELECT MAX(version) FROM versions` — fails if the
`versions` relation does not exist, yields NULL (`none`) on an empty table.
(This read goes through `PSQL.execute`, which returns the cursor, so it
works.) -/
def readVersion (s : DB) : Except DbErr (Option Int) :=
  if s.versionsT then Except.ok (listMax s.versions)
  else Except.error (DbErr.relationMissing "versions")

/-- `PSQL.set_version`: `CREATE TABLE IF NOT EXISTS versions` then
`INSERT INTO versions VALUES (v)` (the value is `%i`-formatted into the
statement, no placeholders; runs through `PSQL.execute`). -/
def setVersion (v : Int) (s : DB) : DB :=
  { s with versionsT := true, versions := s.versions ++ [v] }

/-! ## Migration steps (`PSQL.migrate`, the three version-gated blocks)

The step bodies bypass `PSQL.execute` (which converts `?` to `%s` and
returns the cursor) and call `con.cursor().execute` with sqlite3 idioms
directly, so under psycopg2 each block raises inside its transaction:

* version-0 block, line 99: `execute('UPDATE comments SET voters=?', (bf,))`
  — psycopg2 interpolates `%s`, not `?`; a non-empty parameter tuple with no
  `%s` in the statement raises `TypeError` before anything is written.
* version-1 block: with a configured session key, line 108's
  `'UPDATE preferences SET value=? WHERE key=?'` raises the same
  `TypeError`; without one, line 111's parameterless
  `INSERT INTO versions VALUES (2)` succeeds transaction-locally and then
  line 112's `con.total_changes` (a sqlite3-only connection attribute,
  evaluated eagerly as a logging argument) raises `AttributeError`.
* version-2 block, line 120:
  `con.cursor().execute("SELECT id FROM comments WHERE parent IS NULL").fetchall()`
  — psycopg2's `cursor.execute` returns `None`, so `.fetchall()` raises
  `AttributeError` before the flattener's worklist loop or any `UPDATE`.

The `with psycopg2.connect(...)` block rolls back on the exception and
re-raises it, so each step body is embedded as the error it raises and its
transaction-local effects are discarded. -/

/-- One migration step body, run inside its own transaction: `ok` commits
the returned state, `error` rolls the transaction back (contributing
nothing). -/
abbrev Step := DB → Except DbErr DB

/-- 0→1 (`if self.version == 0`): raises `TypeError` at its first statement
(line 99, unconverted `?` placeholder); nothing is written. -/
def step0 : Step := fun _s =>
  Except.error DbErr.typeErrorPlaceholder

/-- 1→2 (`if self.version == 1`): with a configured session key, raises
`TypeError` at line 108 (unconverted `?` placeholders); without one, the
version-2 insert (line 111) lands only transaction-locally before
`con.total_changes` (line 112) raises `AttributeError` and rolls it back. -/
def step1 (conf : Config) : Step := fun s =>
  match conf.sessionKey with
  | some _k => Except.error DbErr.typeErrorPlaceholder
  | none =>
    let _txnLocal : DB := { s with versions := s.versions ++ [2] }
    Except.error (DbErr.attributeError "total_changes")

/-- 2→3 (`if self.version == 2`): raises `AttributeError` at line 120
(`.fetchall()` on the `None` that psycopg2's `cursor.execute` returns),
before the flattener's traversal or any `UPDATE` runs. -/
def step2 : Step := fun _s =>
  Except.error (DbErr.attributeError "fetchall")

/-- Result of `migrate` (and of `open`): the persisted state (the committed
prefix survives an exception), the trace of invoked steps as
`(step index, version read at the step's guard)`, and the propagated
exception, if any. -/
structure MigResult where
  db : DB
  applied : List (Nat × Int)
  err : Option DbErr
  deriving DecidableEq, Repr

/-- One `if self.version == k:` block of `migrate`: skipped after an earlier
exception; re-reads the version; Python's `None == k` is `False` (no error);
runs the step body in its own transaction when the guard matches. -/
def runGuarded (k : Nat) (st : Step) (r : MigResult) : MigResult :=
  match r.err with
  | some _ => r
  | none =>
    match readVersion r.db with
    | Except.error e => ⟨r.db, r.applied, some e⟩
    | Except.ok none => r
    | Except.ok (some v) =>
      if v = (k : Int) then
        match st r.db with
        | Except.ok s' => ⟨s', r.applied ++ [(k, v)], none⟩
        | Except.error e => ⟨r.db, r.applied, some e⟩
      else r

/-- `PSQL.migrate(to)` with the three step bodies as parameters:
`if self.version >= to: return`, else the three guarded blocks in order
(a `None` version makes `>=` raise `TypeError`). -/
def migrateAux (st0 st1 st2 : Step) (toV : Int) (s : DB) : MigResult :=
  match readVersion s with
  | Except.error e => ⟨s, [], some e⟩
  | Except.ok none => ⟨s, [], some DbErr.noneComparison⟩
  | Except.ok (some v) =>
    if toV ≤ v then ⟨s, [], none⟩
    else runGuarded 2 st2 (runGuarded 1 st1 (runGuarded 0 st0 ⟨s, [], none⟩))

/-- `PSQL.migrate` with the source's step bodies. -/
def migrate (conf : Config) (toV : Int) (s : DB) : MigResult :=
  migrateAux step0 (step1 conf) step2 toV s

/-! ## Open (`PSQL.__init__`) -/

/-- `PSQL.MAX_VERSION`. -/
def MAX_VERSION : Int := 3

/-- `Threads.__init__`: `CREATE TABLE IF NOT EXISTS threads (...)`. -/
def ensureThreads (s : DB) : DB :=
  if s.threadsT then s else { s with threadsT := true, threads := [] }

/-- Comment-table schema initialization.
Modelled from the spec: `comments.py` is not among the sources; §6: an
idempotent `ensureSchema()` that creates the table if missing. -/
def ensureComments (s : DB) : DB :=
  if s.commentsT then s else { s with commentsT := true, comments := [] }

/-- The default value of the `session-key` preference row.
Modelled from the spec: `preferences.py` is not among the sources. -/
def defaultSessionKey : String := "default-session-key"

/-- Preference-table schema initialization.
Modelled from the spec: `preferences.py` is not among the sources; §4.4:
"the row must already exist per the preferences sub-schema's initialization",
so the ensure creates the table if missing and a `session-key` row if absent. -/
def ensurePrefs (s : DB) : DB :=
  let s' := if s.prefsT then s else { s with prefsT := true, prefs := [] }
  if s'.prefs.any (fun p => p.key = "session-key") then s'
  else { s' with prefs := s'.prefs ++ [⟨"session-key", defaultSessionKey⟩] }

/-- `PSQL.__init__`: probe `pg_tables` for the three content tables,
construct the sub-schemas (Preferences, Threads, Comments; the spam guard
owns no data this core touches), then either `set_version(MAX_VERSION)`
(fresh store) or `migrate(to=MAX_VERSION)`; finally (re)install the
orphan-reaper trigger — unless an exception already propagated out of
`migrate`, which aborts `__init__`. -/
def openDB (conf : Config) (s : DB) : MigResult :=
  let fresh := !s.threadsT && !s.commentsT && !s.prefsT
  let s1 := ensureComments (ensureThreads (ensurePrefs s))
  if fresh then
    ⟨{ setVersion MAX_VERSION s1 with trigger := true }, [], none⟩
  else
    let r := migrate conf MAX_VERSION s1
    match r.err with
    | some e => ⟨r.db, r.applied, some e⟩
    | none => ⟨{ r.db with trigger := true }, r.applied, none⟩

/-- `DELETE FROM comments WHERE id=cid`, followed by the orphan-reaper
trigger (statement-level `AFTER DELETE`): `DELETE FROM threads WHERE id NOT
IN (SELECT tid FROM comments)` — when the trigger is installed. -/
def deleteComment (cid : Nat) (s : DB) : DB :=
  let cs := s.comments.filter (fun c => c.id ≠ cid)
  let ths :=
    if s.trigger then s.threads.filter (fun t => cs.any (fun c => c.tid = t.id))
    else s.threads
  { s with comments := cs, threads := ths }

/-! ## Basic lemmas -/

theorem ensureThreads_versions (s : DB) : (ensureThreads s).versions = s.versions := by
  unfold ensureThreads; split <;> rfl

theorem ensureThreads_versionsT (s : DB) : (ensureThreads s).versionsT = s.versionsT := by
  unfold ensureThreads; split <;> rfl

theorem ensureThreads_comments (s : DB) : (ensureThreads s).comments = s.comments := by
  unfold ensureThreads; split <;> rfl

theorem ensureComments_versions (s : DB) : (ensureComments s).versions = s.versions := by
  unfold ensureComments; split <;> rfl

theorem ensureComments_versionsT (s : DB) : (ensureComments s).versionsT = s.versionsT := by
  unfold ensureComments; split <;> rfl

theorem ensurePrefs_versions (s : DB) : (ensurePrefs s).versions = s.versions := by
  unfold ensurePrefs; dsimp only; split <;> split <;> rfl

theorem ensurePrefs_versionsT (s : DB) : (ensurePrefs s).versionsT = s.versionsT := by
  unfold ensurePrefs; dsimp only; split <;> split <;> rfl

theorem ensurePrefs_comments (s : DB) : (ensurePrefs s).comments = s.comments := by
  unfold ensurePrefs; dsimp only; split <;> split <;> rfl

theorem openDB_trigger (conf : Config) (s : DB)
    (h : (openDB conf s).err = none) : (openDB conf s).db.trigger = true := by
  unfold openDB at h ⊢
  by_cases hf : (!s.threadsT && !s.commentsT && !s.prefsT) = true
  · simp only [hf, if_true]
  · simp only [Bool.not_eq_true] at hf
    simp only [hf, Bool.false_eq_true, if_false] at h ⊢
    cases he : (migrate conf MAX_VERSION
        (ensureComments (ensureThreads (ensurePrefs s)))).err
    · simp only [he]
    · simp [he] at h

/-- `open` on an existing store (some content table present), written out:
ensure the sub-schemas, run `migrate(to=3)`, and install the trigger only
when no exception propagated. -/
theorem openDB_nonfresh (conf : Config) (s : DB) (ht : s.threadsT = true) :
    openDB conf s =
      match (migrate conf 3
          (ensureComments (ensureThreads (ensurePrefs s)))).err with
      | some e =>
        ⟨(migrate conf 3 (ensureComments (ensureThreads (ensurePrefs s)))).db,
         (migrate conf 3 (ensureComments (ensureThreads (ensurePrefs s)))).applied,
         some e⟩
      | none =>
        ⟨{ (migrate conf 3 (ensureComments (ensureThreads (ensurePrefs s)))).db
            with trigger := true },
         (migrate conf 3 (ensureComments (ensureThreads (ensurePrefs s)))).applied,
         none⟩ := by
  unfold openDB
  rw [show (!s.threadsT && !s.commentsT && !s.prefsT) = false by simp [ht]]
  simp only [Bool.false_eq_true, if_false, MAX_VERSION]

/-! ## Guard-evaluation lemmas for `migrate` -/

theorem runGuarded_skip (k : Nat) (st : Step) (s : DB) (ap : List (Nat × Int))
    (v : Int) (hvt : s.versionsT = true) (hv : listMax s.versions = some v)
    (hne : v ≠ (k : Int)) : runGuarded k st ⟨s, ap, none⟩ = ⟨s, ap, none⟩ := by
  unfold runGuarded
  simp [readVersion, hvt, hv, hne]

theorem runGuarded_errs (k : Nat) (st : Step) (r : MigResult) (e : DbErr)
    (h : r.err = some e) : runGuarded k st r = r := by
  unfold runGuarded
  rw [h]

theorem runGuarded_hit_error (k : Nat) (st : Step) (s : DB)
    (ap : List (Nat × Int)) (v : Int) (e : DbErr) (hvt : s.versionsT = true)
    (hv : listMax s.versions = some v) (hvk : v = (k : Int))
    (hst : st s = Except.error e) :
    runGuarded k st ⟨s, ap, none⟩ = ⟨s, ap, some e⟩ := by
  unfold runGuarded
  simp [readVersion, hvt, hv, hvk, hst]

/-- From any persisted version with a registered step (0, 1 or 2), `migrate`
aborts with the error the fired step body raises, applying nothing and
leaving the store byte-identical. -/
theorem migrate_crash_at (conf : Config) (s : DB) (v : Int)
    (hvt : s.versionsT = true) (hv : listMax s.versions = some v) :
    (v = 0 → migrate conf 3 s = ⟨s, [], some DbErr.typeErrorPlaceholder⟩) ∧
    (v = 1 → migrate conf 3 s =
      ⟨s, [], some (match conf.sessionKey with
        | some _ => DbErr.typeErrorPlaceholder
        | none => DbErr.attributeError "total_changes")⟩) ∧
    (v = 2 → migrate conf 3 s =
      ⟨s, [], some (DbErr.attributeError "fetchall")⟩) := by
  have hrv : readVersion s = Except.ok (some v) := by simp [readVersion, hvt, hv]
  refine ⟨?_, ?_, ?_⟩
  · intro h
    subst h
    unfold migrate migrateAux
    rw [hrv]
    dsimp only
    rw [if_neg (by norm_num)]
    rw [runGuarded_hit_error 0 step0 s [] 0 DbErr.typeErrorPlaceholder hvt hv
      (by norm_num) rfl]
    rw [runGuarded_errs 1 (step1 conf) ⟨s, [], some DbErr.typeErrorPlaceholder⟩
      DbErr.typeErrorPlaceholder rfl]
    rw [runGuarded_errs 2 step2 ⟨s, [], some DbErr.typeErrorPlaceholder⟩
      DbErr.typeErrorPlaceholder rfl]
  · intro h
    subst h
    unfold migrate migrateAux
    rw [hrv]
    dsimp only
    rw [if_neg (by norm_num)]
    rw [runGuarded_skip 0 step0 s [] 1 hvt hv (by norm_num)]
    cases hk : conf.sessionKey with
    | none =>
      rw [runGuarded_hit_error 1 (step1 conf) s [] 1
        (DbErr.attributeError "total_changes") hvt hv (by norm_num)
        (by simp [step1, hk])]
      rw [runGuarded_errs 2 step2
        ⟨s, [], some (DbErr.attributeError "total_changes")⟩
        (DbErr.attributeError "total_changes") rfl]
    | some k =>
      rw [runGuarded_hit_error 1 (step1 conf) s [] 1
        DbErr.typeErrorPlaceholder hvt hv (by norm_num)
        (by simp [step1, hk])]
      rw [runGuarded_errs 2 step2 ⟨s, [], some DbErr.typeErrorPlaceholder⟩
        DbErr.typeErrorPlaceholder rfl]
  · intro h
    subst h
    unfold migrate migrateAux
    rw [hrv]
    dsimp only
    rw [if_neg (by norm_num)]
    rw [runGuarded_skip 0 step0 s [] 2 hvt hv (by norm_num)]
    rw [runGuarded_skip 1 (step1 conf) s [] 2 hvt hv (by norm_num)]
    rw [runGuarded_hit_error 2 step2 s [] 2 (DbErr.attributeError "fetchall")
      hvt hv (by norm_num) rfl]

/-! ## Claim C7 — what the version read yields when no version was ever set -/

/-- C7 (counterexample): the claim says `currentVersion()` yields the integer
0 on a store where no version record exists; on the concrete store whose
`versions` table exists but holds no row, `PSQL.version` is
`SELECT MAX(version) FROM versions`, which yields SQL NULL (`none`),
not 0. -/
theorem c7_cex :
    readVersion ⟨true, true, true, true, [], [], [], [], false⟩ = Except.ok none ∧
    readVersion ⟨true, true, true, true, [], [], [], [], false⟩ ≠
      Except.ok (some 0) := by
  constructor
  · rfl
  · intro h
    simp [readVersion, listMax] at h

/-- C7 (amended): reading the version on a store where no version record
exists yields SQL NULL (`none`), not the integer 0; and when the `versions`
table itself does not exist the read fails with a missing-relation error. -/
theorem c7_version_read_when_unset (s : DB) :
    (s.versionsT = true → s.versions = [] → readVersion s = Except.ok none) ∧
    (s.versionsT = false →
      readVersion s = Except.error (DbErr.relationMissing "versions")) := by
  constructor
  · intro h1 h2
    simp [readVersion, h1, h2, listMax]
  · intro h1
    simp [readVersion, h1]

/-- C7 witness. -/
theorem c7_version_read_when_unset_witness :
    readVersion ⟨true, true, true, true, [], [], [], [], false⟩ = Except.ok none ∧
    readVersion ⟨false, false, false, false, [], [], [], [], false⟩ =
      Except.error (DbErr.relationMissing "versions") :=
  ⟨(c7_version_read_when_unset _).1 rfl rfl,
   (c7_version_read_when_unset _).2 rfl⟩

/-! ## Claim C9 — behaviour when no step is registered for the current version -/

/-- C9 (counterexample): the claim says `migrate` fails with
`NoMigrationPath` when the current version is below the target but no step is
registered for it; on the concrete store persisted at version `-1` (steps
exist only for 0, 1, 2), `migrate(to=3)` raises nothing, applies nothing and
leaves the store byte-identical, its version still `-1 < 3`. -/
theorem c9_cex :
    migrate ⟨none⟩ 3 ⟨true, true, true, true, [], [], [], [-1], false⟩ =
      ⟨⟨true, true, true, true, [], [], [], [-1], false⟩, [], none⟩ ∧
    readVersion ⟨true, true, true, true, [], [], [], [-1], false⟩ =
      Except.ok (some (-1)) := by
  constructor
  · rfl
  · rfl

/-- C9 (amended): when the current version is below the target but none of
the registered guards (`version == 0/1/2`) matches it, `migrate` silently
completes: no error is raised, no step is applied, and the store — version
included — is left unchanged, below the target. -/
theorem c9_no_migration_path (conf : Config) (s : DB) (v : Int)
    (hvt : s.versionsT = true) (hv : listMax s.versions = some v)
    (hlt : v < 3) (h0 : v ≠ 0) (h1 : v ≠ 1) (h2 : v ≠ 2) :
    migrate conf 3 s = ⟨s, [], none⟩ := by
  have hrv : readVersion s = Except.ok (some v) := by simp [readVersion, hvt, hv]
  unfold migrate migrateAux
  rw [hrv]
  dsimp only
  rw [if_neg (by omega : ¬ (3 : Int) ≤ v)]
  rw [runGuarded_skip 0 _ s [] v hvt hv (by exact_mod_cast h0)]
  rw [runGuarded_skip 1 _ s [] v hvt hv (by exact_mod_cast h1)]
  rw [runGuarded_skip 2 _ s [] v hvt hv (by exact_mod_cast h2)]

/-- C9 witness. -/
theorem c9_no_migration_path_witness :
    migrate ⟨none⟩ 3 ⟨true, true, true, true, [], [], [], [-1], false⟩ =
      ⟨⟨true, true, true, true, [], [], [], [-1], false⟩, [], none⟩ :=
  c9_no_migration_path ⟨none⟩ _ (-1) rfl rfl (by decide) (by decide) (by decide)
    (by decide)

/-! ## Claim C8 — conditionality of the 1→2 config-to-store migrator -/

/-- C8 (the code, evaluated at the failing inputs): the 1→2 block never
behaves as claimed.  With no configured session key it does not complete
without error: line 111's version insert lands only transaction-locally and
line 112's `con.total_changes` raises `AttributeError`, rolling everything
back.  With a configured key, line 108's `?` placeholders raise `TypeError`,
so the `session-key` preference row is never updated.  Either way `migrate`
from version 1 aborts with the error, applying nothing and leaving the store
— preference rows included — byte-identical. -/
theorem c8_config_copy_crashes (conf : Config) (s : DB) :
    (conf.sessionKey = none →
      step1 conf s = Except.error (DbErr.attributeError "total_changes")) ∧
    (∀ k, conf.sessionKey = some k →
      step1 conf s = Except.error DbErr.typeErrorPlaceholder) ∧
    (s.versionsT = true → listMax s.versions = some 1 →
      migrate conf 3 s = ⟨s, [], some (match conf.sessionKey with
        | some _ => DbErr.typeErrorPlaceholder
        | none => DbErr.attributeError "total_changes")⟩) := by
  refine ⟨?_, ?_, ?_⟩
  · intro hk
    simp [step1, hk]
  · intro k hk
    simp [step1, hk]
  · intro hvt hv
    exact (migrate_crash_at conf s 1 hvt hv).2.1 rfl

/-- A version-1 store with the `session-key` row already present (as the
preferences sub-schema guarantees). -/
def c8s : DB :=
  ⟨true, true, true, true, [], [],
   [⟨"session-key", "old"⟩, ⟨"other", "v"⟩], [1], false⟩

/-- C8 witness. -/
theorem c8_config_copy_crashes_witness :
    step1 ⟨none⟩ c8s = Except.error (DbErr.attributeError "total_changes") ∧
    step1 ⟨some "K"⟩ c8s = Except.error DbErr.typeErrorPlaceholder ∧
    migrate ⟨none⟩ 3 c8s =
      ⟨c8s, [], some (DbErr.attributeError "total_changes")⟩ := by
  refine ⟨(c8_config_copy_crashes ⟨none⟩ c8s).1 rfl,
    (c8_config_copy_crashes ⟨some "K"⟩ c8s).2.1 "K" rfl, ?_⟩
  exact (c8_config_copy_crashes ⟨none⟩ c8s).2.2 rfl rfl

/-! ## Claim C4 — the orphan-reaper trigger -/

/-- C4: with the trigger installed, deleting a comment removes exactly the
comment rows with that id, then removes exactly the thread rows with zero
referencing comments, so every remaining thread row has at least one
referencing comment; and the trigger is (re)installed on every successful
open — fresh or migrated, regardless of version. -/
theorem c4_orphan_reaper (s : DB) (cid : Nat) (conf : Config) (s2 : DB) :
    (s.trigger = true →
      (deleteComment cid s).comments = s.comments.filter (fun c => c.id ≠ cid) ∧
      (deleteComment cid s).threads = s.threads.filter (fun t =>
        (s.comments.filter (fun c => c.id ≠ cid)).any (fun c => c.tid = t.id)) ∧
      ∀ t ∈ (deleteComment cid s).threads,
        ∃ c ∈ (deleteComment cid s).comments, c.tid = t.id) ∧
    ((openDB conf s2).err = none → (openDB conf s2).db.trigger = true) := by
  constructor
  · intro ht
    refine ⟨rfl, by simp [deleteComment, ht], ?_⟩
    intro t htm
    simp only [deleteComment, ht, if_true, List.mem_filter] at htm
    obtain ⟨-, hany⟩ := htm
    simp only [List.any_eq_true, decide_eq_true_eq] at hany
    obtain ⟨c, hc, hcc⟩ := hany
    exact ⟨c, by simpa [deleteComment, ht] using hc, hcc⟩
  · exact openDB_trigger conf s2

/-- C4 witness: thread 10 has exactly one comment, thread 20 has two; with
the trigger installed, deleting thread 10's only comment removes thread 10
while thread 20 survives, and deleting one of thread 20's two comments
leaves thread 20 present; the trigger is installed after opening a fresh
store. -/
theorem c4_orphan_reaper_witness :
    (deleteComment 1
        ⟨true, true, true, true, [⟨10, "a", "A"⟩, ⟨20, "b", "B"⟩],
         [⟨1, 10, none, "v"⟩, ⟨2, 20, none, "v"⟩, ⟨3, 20, some 2, "v"⟩],
         [], [3], true⟩).threads = [⟨20, "b", "B"⟩] ∧
    (deleteComment 3
        ⟨true, true, true, true, [⟨10, "a", "A"⟩, ⟨20, "b", "B"⟩],
         [⟨1, 10, none, "v"⟩, ⟨2, 20, none, "v"⟩, ⟨3, 20, some 2, "v"⟩],
         [], [3], true⟩).threads = [⟨10, "a", "A"⟩, ⟨20, "b", "B"⟩] ∧
    (openDB ⟨none⟩ ⟨false, false, false, false, [], [], [], [], false⟩).db.trigger =
      true := by
  refine ⟨?_, ?_, ?_⟩
  · rw [(c4_orphan_reaper _ 1 ⟨none⟩
      ⟨false, false, false, false, [], [], [], [], false⟩).1 rfl |>.2.1]
    rfl
  · rw [(c4_orphan_reaper _ 3 ⟨none⟩
      ⟨false, false, false, false, [], [], [], [], false⟩).1 rfl |>.2.1]
    rfl
  · exact (c4_orphan_reaper
      ⟨false, false, false, false, [], [], [], [], false⟩ 0 ⟨none⟩
      ⟨false, false, false, false, [], [], [], [], false⟩).2 rfl

/-! ## Claim C10 — fresh store: set version directly, run no step -/

/-- C10: when none of the `threads`, `comments`, `preferences` tables
pre-exist, open records `MAX_VERSION` directly via `set_version`, invokes no
migration step (empty step trace: no bitset reset, no session-key copy, no
flatten), and the freshly created tables hold exactly what schema
initialization put there. -/
theorem c10_fresh_store (conf : Config) (s : DB)
    (h1 : s.threadsT = false) (h2 : s.commentsT = false)
    (h3 : s.prefsT = false) :
    (openDB conf s).err = none ∧
    (openDB conf s).applied = [] ∧
    (openDB conf s).db.versions = s.versions ++ [MAX_VERSION] ∧
    (openDB conf s).db.versionsT = true ∧
    (openDB conf s).db.threads = [] ∧
    (openDB conf s).db.comments = [] ∧
    (openDB conf s).db.prefs = [⟨"session-key", defaultSessionKey⟩] ∧
    (openDB conf s).db.trigger = true := by
  have hfresh : (!s.threadsT && !s.commentsT && !s.prefsT) = true := by
    simp [h1, h2, h3]
  unfold openDB
  rw [hfresh]
  simp only [if_true]
  unfold ensurePrefs ensureThreads ensureComments setVersion
  simp [h1, h2, h3]

/-- C10 witness. -/
theorem c10_fresh_store_witness :
    (openDB ⟨some "K"⟩
        ⟨false, false, false, false, [], [], [], [], false⟩).applied = [] ∧
    (openDB ⟨some "K"⟩
        ⟨false, false, false, false, [], [], [], [], false⟩).db.versions = [3] :=
  ⟨(c10_fresh_store ⟨some "K"⟩ _ rfl rfl rfl).2.1,
   (c10_fresh_store ⟨some "K"⟩ _ rfl rfl rfl).2.2.1⟩

/-! ## Claim C2 — what open actually does from each persisted version -/

/-- C2 (the code, evaluated): opening an existing store reaches
`MAX_VERSION` only when it was already there.  From version 0 the fired
0→1 block raises `TypeError` (line 99); from version 1 the 1→2 block raises
`TypeError` (line 108, key configured) or `AttributeError` (line 112, no
key); from version 2 the 2→3 block raises `AttributeError` (line 120).  In
each case open aborts with the error, records no applied step, and leaves
the version rows unchanged — below the target.  Only from version 3 does
open complete, trivially, with no step applied. -/
theorem c2_open_crashes (conf : Config) (s : DB) (v : Int)
    (ht : s.threadsT = true) (hvt : s.versionsT = true)
    (hv : listMax s.versions = some v) :
    (v = 0 → (openDB conf s).err = some DbErr.typeErrorPlaceholder ∧
      (openDB conf s).db.versions = s.versions ∧ (openDB conf s).applied = []) ∧
    (v = 1 → (openDB conf s).err = some (match conf.sessionKey with
        | some _ => DbErr.typeErrorPlaceholder
        | none => DbErr.attributeError "total_changes") ∧
      (openDB conf s).db.versions = s.versions ∧ (openDB conf s).applied = []) ∧
    (v = 2 → (openDB conf s).err = some (DbErr.attributeError "fetchall") ∧
      (openDB conf s).db.versions = s.versions ∧ (openDB conf s).applied = []) ∧
    (v = 3 → (openDB conf s).err = none ∧
      readVersion (openDB conf s).db = Except.ok (some 3) ∧
      (openDB conf s).applied = []) := by
  have hs1vt : (ensureComments (ensureThreads (ensurePrefs s))).versionsT = true := by
    rw [ensureComments_versionsT, ensureThreads_versionsT, ensurePrefs_versionsT]
    exact hvt
  have hs1v : listMax (ensureComments (ensureThreads (ensurePrefs s))).versions =
      some v := by
    rw [ensureComments_versions, ensureThreads_versions, ensurePrefs_versions]
    exact hv
  have hs1ver : (ensureComments (ensureThreads (ensurePrefs s))).versions =
      s.versions := by
    rw [ensureComments_versions, ensureThreads_versions, ensurePrefs_versions]
  have hopen := openDB_nonfresh conf s ht
  refine ⟨?_, ?_, ?_, ?_⟩ <;> intro hveq <;> subst hveq
  · rw [hopen, (migrate_crash_at conf _ 0 hs1vt hs1v).1 rfl]
    exact ⟨rfl, hs1ver, rfl⟩
  · rw [hopen, (migrate_crash_at conf _ 1 hs1vt hs1v).2.1 rfl]
    cases hk : conf.sessionKey
    · exact ⟨rfl, hs1ver, rfl⟩
    · exact ⟨rfl, hs1ver, rfl⟩
  · rw [hopen, (migrate_crash_at conf _ 2 hs1vt hs1v).2.2 rfl]
    exact ⟨rfl, hs1ver, rfl⟩
  · have hm3 : migrate conf 3 (ensureComments (ensureThreads (ensurePrefs s))) =
        ⟨ensureComments (ensureThreads (ensurePrefs s)), [], none⟩ := by
      unfold migrate migrateAux
      rw [show readVersion (ensureComments (ensureThreads (ensurePrefs s))) =
        Except.ok (some 3) by simp [readVersion, hs1vt, hs1v]]
      dsimp only
      rw [if_pos (by norm_num : (3 : Int) ≤ 3)]
    rw [hopen, hm3]
    refine ⟨rfl, ?_, rfl⟩
    show readVersion
      { ensureComments (ensureThreads (ensurePrefs s)) with trigger := true } =
      Except.ok (some 3)
    simp [readVersion, hs1vt, hs1v]

/-- C2 witness: an existing store persisted at version 0 fails to open —
the TypeError of the 0→1 block surfaces and the version rows stay `[0]` —
while the same store persisted at version 3 opens with no steps. -/
theorem c2_open_crashes_witness :
    (openDB ⟨none⟩
        ⟨true, true, true, true, [], [], [⟨"session-key", "x"⟩], [0], false⟩).err =
      some DbErr.typeErrorPlaceholder ∧
    (openDB ⟨none⟩
        ⟨true, true, true, true, [], [], [⟨"session-key", "x"⟩], [0], false⟩).db.versions =
      [0] ∧
    (openDB ⟨none⟩
        ⟨true, true, true, true, [], [], [⟨"session-key", "x"⟩], [3], false⟩).err =
      none := by
  obtain ⟨h0, -, -, -⟩ :=
    c2_open_crashes ⟨none⟩
      ⟨true, true, true, true, [], [], [⟨"session-key", "x"⟩], [0], false⟩ 0
      rfl rfl rfl
  obtain ⟨-, -, -, h3⟩ :=
    c2_open_crashes ⟨none⟩
      ⟨true, true, true, true, [], [], [⟨"session-key", "x"⟩], [3], false⟩ 3
      rfl rfl rfl
  exact ⟨(h0 rfl).1, (h0 rfl).2.1, (h3 rfl).1⟩

/-- The full ensure chain leaves the versions table alone. -/
theorem ensures_versions (s : DB) :
    (ensureComments (ensureThreads (ensurePrefs s))).versions = s.versions := by
  rw [ensureComments_versions, ensureThreads_versions, ensurePrefs_versions]

theorem ensures_versionsT (s : DB) :
    (ensureComments (ensureThreads (ensurePrefs s))).versionsT = s.versionsT := by
  rw [ensureComments_versionsT, ensureThreads_versionsT, ensurePrefs_versionsT]

/-- When the comments table already exists, the ensure chain leaves its
rows alone. -/
theorem ensures_comments_stay (s : DB) (hct : s.commentsT = true) :
    (ensureComments (ensureThreads (ensurePrefs s))).comments = s.comments := by
  rw [show ensureComments (ensureThreads (ensurePrefs s)) =
      ensureThreads (ensurePrefs s) by
    unfold ensureComments
    rw [if_pos (by
      rw [show (ensureThreads (ensurePrefs s)).commentsT = s.commentsT by
        unfold ensureThreads ensurePrefs
        dsimp only
        split <;> split <;> (try split) <;> rfl]
      exact hct)]]
  rw [ensureThreads_comments, ensurePrefs_comments]

/-! ## Claim C3 — step failure rolls back; error surfaces to open's caller -/

/-- C3: every statement failure inside a migration step — and each of the
three steps does fail: `TypeError` on the `?` placeholders (lines 99, 108),
`AttributeError` on `con.total_changes` (line 112), `AttributeError` on
`.fetchall()` of `None` (line 120) — rolls the step's enclosing transaction
back completely: the persisted store, version counter and every comment
parent assignment included, is byte-identical to its pre-step value (the
version-1 step's transaction-local `INSERT INTO versions VALUES (2)` is
discarded), no step is recorded as applied, and the error propagates out of
`migrate` and out of `open` to the caller, leaving a consistent store at the
same version as before the attempt. -/
theorem c3_step_failure_rollback (conf : Config) (s : DB) (v : Int)
    (hvt : s.versionsT = true) (hv : listMax s.versions = some v)
    (hlo : 0 ≤ v) (hhi : v ≤ 2) :
    (migrate conf 3 s).db = s ∧
    (migrate conf 3 s).applied = [] ∧
    (migrate conf 3 s).err ≠ none ∧
    (s.threadsT = true →
      (openDB conf s).err = (migrate conf 3 s).err ∧
      (openDB conf s).db.versions = s.versions ∧
      (s.commentsT = true → (openDB conf s).db.comments = s.comments)) := by
  have hs1vt : (ensureComments (ensureThreads (ensurePrefs s))).versionsT = true := by
    rw [ensures_versionsT]
    exact hvt
  have hs1v : listMax (ensureComments (ensureThreads (ensurePrefs s))).versions =
      some v := by
    rw [ensures_versions]
    exact hv
  have hs1ver : (ensureComments (ensureThreads (ensurePrefs s))).versions =
      s.versions := ensures_versions s
  have hs1com : s.commentsT = true →
      (ensureComments (ensureThreads (ensurePrefs s))).comments = s.comments :=
    ensures_comments_stay s
  have hv3 : v = 0 ∨ v = 1 ∨ v = 2 := by omega
  rcases hv3 with hveq | hveq | hveq <;> subst hveq
  · have hm := (migrate_crash_at conf s 0 hvt hv).1 rfl
    have hm1 := (migrate_crash_at conf _ 0 hs1vt hs1v).1 rfl
    refine ⟨by rw [hm], by rw [hm], by rw [hm]; simp, ?_⟩
    intro ht
    rw [openDB_nonfresh conf s ht, hm, hm1]
    exact ⟨rfl, hs1ver, fun hct => hs1com hct⟩
  · have hm := (migrate_crash_at conf s 1 hvt hv).2.1 rfl
    have hm1 := (migrate_crash_at conf _ 1 hs1vt hs1v).2.1 rfl
    refine ⟨by rw [hm], by rw [hm], by rw [hm]; simp, ?_⟩
    intro ht
    rw [openDB_nonfresh conf s ht, hm, hm1]
    exact ⟨rfl, hs1ver, fun hct => hs1com hct⟩
  · have hm := (migrate_crash_at conf s 2 hvt hv).2.2 rfl
    have hm1 := (migrate_crash_at conf _ 2 hs1vt hs1v).2.2 rfl
    refine ⟨by rw [hm], by rw [hm], by rw [hm]; simp, ?_⟩
    intro ht
    rw [openDB_nonfresh conf s ht, hm, hm1]
    exact ⟨rfl, hs1ver, fun hct => hs1com hct⟩

/-- C3 witness: a version-2 store with an unflattened comment tree is left
byte-identical by the failing 2→3 step, and open surfaces the same error. -/
theorem c3_step_failure_rollback_witness :
    (migrate ⟨none⟩ 3
        ⟨true, true, true, true, [⟨10, "u", "t"⟩],
         [⟨1, 10, none, "v"⟩, ⟨2, 10, some 1, "v"⟩, ⟨3, 10, some 2, "v"⟩],
         [⟨"session-key", "x"⟩], [2], false⟩).db =
      ⟨true, true, true, true, [⟨10, "u", "t"⟩],
       [⟨1, 10, none, "v"⟩, ⟨2, 10, some 1, "v"⟩, ⟨3, 10, some 2, "v"⟩],
       [⟨"session-key", "x"⟩], [2], false⟩ ∧
    (openDB ⟨none⟩
        ⟨true, true, true, true, [⟨10, "u", "t"⟩],
         [⟨1, 10, none, "v"⟩, ⟨2, 10, some 1, "v"⟩, ⟨3, 10, some 2, "v"⟩],
         [⟨"session-key", "x"⟩], [2], false⟩).err =
      (migrate ⟨none⟩ 3
        ⟨true, true, true, true, [⟨10, "u", "t"⟩],
         [⟨1, 10, none, "v"⟩, ⟨2, 10, some 1, "v"⟩, ⟨3, 10, some 2, "v"⟩],
         [⟨"session-key", "x"⟩], [2], false⟩).err := by
  obtain ⟨h1, -, -, h4⟩ :=
    c3_step_failure_rollback ⟨none⟩
      ⟨true, true, true, true, [⟨10, "u", "t"⟩],
       [⟨1, 10, none, "v"⟩, ⟨2, 10, some 1, "v"⟩, ⟨3, 10, some 2, "v"⟩],
       [⟨"session-key", "x"⟩], [2], false⟩ 2 rfl rfl (by norm_num) (by norm_num)
  exact ⟨h1, (h4 rfl).1⟩

/-! ## Claim C6 — idempotence of open -/

/-- The shape a store has after any successful open: all four tables exist
and the `session-key` preference row is present. -/
def GoodShape (d : DB) : Prop :=
  d.threadsT = true ∧ d.commentsT = true ∧ d.prefsT = true ∧
  d.versionsT = true ∧
  d.prefs.any (fun p => p.key = "session-key") = true

theorem ensurePrefs_prefsT (s : DB) : (ensurePrefs s).prefsT = true := by
  unfold ensurePrefs
  dsimp only
  split <;> (try split) <;> first | assumption | rfl

theorem ensurePrefs_any (s : DB) :
    (ensurePrefs s).prefs.any (fun p => p.key = "session-key") = true := by
  unfold ensurePrefs
  dsimp only
  split <;> (try split) <;> simp_all

theorem ensurePrefs_threadsT (s : DB) : (ensurePrefs s).threadsT = s.threadsT := by
  unfold ensurePrefs; dsimp only; split <;> split <;> rfl

theorem ensurePrefs_commentsT (s : DB) : (ensurePrefs s).commentsT = s.commentsT := by
  unfold ensurePrefs; dsimp only; split <;> split <;> rfl

theorem ensurePrefs_trigger (s : DB) : (ensurePrefs s).trigger = s.trigger := by
  unfold ensurePrefs; dsimp only; split <;> split <;> rfl

theorem ensureThreads_threadsT (s : DB) : (ensureThreads s).threadsT = true := by
  unfold ensureThreads; split <;> simp_all

theorem ensureThreads_commentsT (s : DB) : (ensureThreads s).commentsT = s.commentsT := by
  unfold ensureThreads; split <;> rfl

theorem ensureThreads_prefsT (s : DB) : (ensureThreads s).prefsT = s.prefsT := by
  unfold ensureThreads; split <;> rfl

theorem ensureThreads_prefs (s : DB) : (ensureThreads s).prefs = s.prefs := by
  unfold ensureThreads; split <;> rfl

theorem ensureThreads_trigger (s : DB) : (ensureThreads s).trigger = s.trigger := by
  unfold ensureThreads; split <;> rfl

theorem ensureComments_commentsT (s : DB) : (ensureComments s).commentsT = true := by
  unfold ensureComments; split <;> simp_all

theorem ensureComments_threadsT (s : DB) : (ensureComments s).threadsT = s.threadsT := by
  unfold ensureComments; split <;> rfl

theorem ensureComments_prefsT (s : DB) : (ensureComments s).prefsT = s.prefsT := by
  unfold ensureComments; split <;> rfl

theorem ensureComments_prefs (s : DB) : (ensureComments s).prefs = s.prefs := by
  unfold ensureComments; split <;> rfl

theorem ensureComments_trigger (s : DB) : (ensureComments s).trigger = s.trigger := by
  unfold ensureComments; split <;> rfl

theorem step0_shape (d d' : DB) (h : step0 d = Except.ok d')
    (_hg : GoodShape d) : GoodShape d' := by
  exact absurd h (by simp [step0])

theorem step1_shape (conf : Config) (d d' : DB)
    (h : step1 conf d = Except.ok d') (_hg : GoodShape d) : GoodShape d' := by
  cases hk : conf.sessionKey <;> simp [step1, hk] at h

theorem step2_shape (d d' : DB) (h : step2 d = Except.ok d')
    (_hg : GoodShape d) : GoodShape d' := by
  exact absurd h (by simp [step2])

theorem runGuarded_shape (k : Nat) (st : Step) (r : MigResult)
    (hst : ∀ d d', st d = Except.ok d' → GoodShape d → GoodShape d')
    (h : GoodShape r.db) : GoodShape (runGuarded k st r).db := by
  unfold runGuarded
  split
  · exact h
  · split
    · exact h
    · exact h
    · split
      · split
        · next heq => exact hst _ _ heq h
        · exact h
      · exact h

theorem migrateAux_shape (conf : Config) (st2x : Step)
    (hst2 : ∀ d d', st2x d = Except.ok d' → GoodShape d → GoodShape d')
    (t : Int) (s : DB) (hg : GoodShape s) :
    GoodShape (migrateAux step0 (step1 conf) st2x t s).db := by
  unfold migrateAux
  split
  · exact hg
  · exact hg
  · split
    · exact hg
    · exact runGuarded_shape 2 _ _ hst2
        (runGuarded_shape 1 _ _ (step1_shape conf)
          (runGuarded_shape 0 _ _ step0_shape hg))

/-- Shape preservation, phrased for `migrate`. -/
theorem migrate_shape (conf : Config) (t : Int) (s : DB) (hg : GoodShape s) :
    GoodShape (migrate conf t s).db :=
  migrateAux_shape conf step2 step2_shape t s hg

theorem migrateAux_versionsT_of_ok (st0x st1x st2x : Step) (t : Int) (s : DB)
    (h : (migrateAux st0x st1x st2x t s).err = none) : s.versionsT = true := by
  by_cases hv : s.versionsT = true
  · exact hv
  · exfalso
    simp only [Bool.not_eq_true] at hv
    unfold migrateAux at h
    rw [show readVersion s = Except.error (DbErr.relationMissing "versions") by
      simp [readVersion, hv]] at h
    simp at h

/-- Versions-table existence, phrased for `migrate`. -/
theorem migrate_versionsT_of_ok (conf : Config) (t : Int) (s : DB)
    (h : (migrate conf t s).err = none) : s.versionsT = true :=
  migrateAux_versionsT_of_ok step0 (step1 conf) step2 t s h

/-- After a successful open the store has the full shape and the trigger. -/
theorem open_good (conf : Config) (s : DB)
    (h : (openDB conf s).err = none) :
    GoodShape (openDB conf s).db ∧ (openDB conf s).db.trigger = true := by
  refine ⟨?_, openDB_trigger conf s h⟩
  unfold openDB at h ⊢
  by_cases hf : (!s.threadsT && !s.commentsT && !s.prefsT) = true
  · rw [hf] at h ⊢
    simp only [if_true] at h ⊢
    refine ⟨?_, ?_, ?_, rfl, ?_⟩
    · show (ensureComments (ensureThreads (ensurePrefs s))).threadsT = true
      rw [ensureComments_threadsT, ensureThreads_threadsT]
    · show (ensureComments (ensureThreads (ensurePrefs s))).commentsT = true
      rw [ensureComments_commentsT]
    · show (ensureComments (ensureThreads (ensurePrefs s))).prefsT = true
      rw [ensureComments_prefsT, ensureThreads_prefsT, ensurePrefs_prefsT]
    · show (ensureComments (ensureThreads (ensurePrefs s))).prefs.any _ = true
      rw [ensureComments_prefs, ensureThreads_prefs]
      exact ensurePrefs_any s
  · simp only [Bool.not_eq_true] at hf
    rw [hf] at h ⊢
    simp only [Bool.false_eq_true, if_false] at h ⊢
    cases he : (migrate conf MAX_VERSION
        (ensureComments (ensureThreads (ensurePrefs s)))).err with
    | some e => rw [he] at h; simp at h
    | none =>
      dsimp only
      have hvt1 : (ensureComments (ensureThreads (ensurePrefs s))).versionsT = true :=
        migrate_versionsT_of_ok _ _ _ he
      have hg1 : GoodShape (ensureComments (ensureThreads (ensurePrefs s))) := by
        refine ⟨?_, ?_, ?_, hvt1, ?_⟩
        · rw [ensureComments_threadsT, ensureThreads_threadsT]
        · rw [ensureComments_commentsT]
        · rw [ensureComments_prefsT, ensureThreads_prefsT, ensurePrefs_prefsT]
        · rw [ensureComments_prefs, ensureThreads_prefs]
          exact ensurePrefs_any s
      have := migrate_shape conf MAX_VERSION _ hg1
      exact this

theorem db_set_trigger_id (d : DB) (h : d.trigger = true) :
    ({ d with trigger := true } : DB) = d := by
  cases d
  simp_all

theorem ensurePrefs_id (d : DB) (h1 : d.prefsT = true)
    (h2 : d.prefs.any (fun p => p.key = "session-key") = true) :
    ensurePrefs d = d := by
  unfold ensurePrefs
  dsimp only
  rw [if_pos h1, if_pos h2]

theorem ensureThreads_id (d : DB) (h : d.threadsT = true) :
    ensureThreads d = d := by
  unfold ensureThreads
  rw [if_pos h]

theorem ensureComments_id (d : DB) (h : d.commentsT = true) :
    ensureComments d = d := by
  unfold ensureComments
  rw [if_pos h]

/-- Opening an already-latest, fully shaped store changes nothing. -/
theorem open_at_latest (conf : Config) (d : DB) (hg : GoodShape d)
    (htr : d.trigger = true) (hv3 : listMax d.versions = some 3) :
    openDB conf d = ⟨d, [], none⟩ := by
  obtain ⟨h1, h2, h3, h4, h5⟩ := hg
  have hf : (!d.threadsT && !d.commentsT && !d.prefsT) = false := by simp [h1]
  unfold openDB
  rw [hf]
  simp only [Bool.false_eq_true, if_false]
  rw [ensurePrefs_id d h3 h5, ensureThreads_id d h1, ensureComments_id d h2]
  have hm : migrate conf MAX_VERSION d = ⟨d, [], none⟩ := by
    unfold migrate migrateAux
    rw [show readVersion d = Except.ok (some 3) by simp [readVersion, h4, hv3]]
    dsimp only
    rw [if_pos (by norm_num [MAX_VERSION] : MAX_VERSION ≤ (3 : Int))]
  rw [hm]
  dsimp only
  rw [db_set_trigger_id d htr]

/-- C6: open is idempotent — if a first open succeeded and left the store at
the latest version `MAX_VERSION`, a second open performs zero data mutations
(the resulting store record, version counter included, is identical) and
applies no migration step, because `migrate` returns immediately. -/
theorem c6_open_idempotent (conf : Config) (s : DB)
    (h : (openDB conf s).err = none)
    (h3 : listMax (openDB conf s).db.versions = some MAX_VERSION) :
    openDB conf (openDB conf s).db = ⟨(openDB conf s).db, [], none⟩ := by
  obtain ⟨hg, htr⟩ := open_good conf s h
  exact open_at_latest conf _ hg htr h3

/-- C6 witness: a second open of an opened fresh store returns it unchanged
with no steps applied. -/
theorem c6_open_idempotent_witness :
    openDB ⟨none⟩
        (openDB ⟨none⟩ ⟨false, false, false, false, [], [], [], [], false⟩).db =
      ⟨(openDB ⟨none⟩ ⟨false, false, false, false, [], [], [], [], false⟩).db,
       [], none⟩ :=
  c6_open_idempotent ⟨none⟩ ⟨false, false, false, false, [], [], [], [], false⟩
    rfl rfl

/-! ## Claim C1 — the 2→3 tree flattener, evaluated -/

/-- C1 (the code, evaluated at the failing input): the 2→3 Tree Flattener
block never flattens anything.  Its first statement chain —
`con.cursor().execute("SELECT id FROM comments WHERE parent IS NULL").fetchall()`,
line 120 — raises `AttributeError` because psycopg2's `cursor.execute`
returns `None`, before any traversal or `UPDATE` runs.  From a version-2
store, `migrate` and `open` abort with that error and every comment row —
parent assignments included — is left exactly as it was, so the claimed
flattened post-state is never reached. -/
theorem c1_flatten_step_crashes (conf : Config) (s : DB)
    (hvt : s.versionsT = true) (hv : listMax s.versions = some 2) :
    step2 s = Except.error (DbErr.attributeError "fetchall") ∧
    migrate conf 3 s = ⟨s, [], some (DbErr.attributeError "fetchall")⟩ ∧
    (s.threadsT = true → s.commentsT = true →
      (openDB conf s).err = some (DbErr.attributeError "fetchall") ∧
      (openDB conf s).db.comments = s.comments ∧
      (openDB conf s).db.versions = s.versions) := by
  have hm := (migrate_crash_at conf s 2 hvt hv).2.2 rfl
  refine ⟨rfl, hm, ?_⟩
  intro ht hct
  have hs1vt : (ensureComments (ensureThreads (ensurePrefs s))).versionsT = true := by
    rw [ensures_versionsT]
    exact hvt
  have hs1v : listMax (ensureComments (ensureThreads (ensurePrefs s))).versions =
      some 2 := by
    rw [ensures_versions]
    exact hv
  have hm1 := (migrate_crash_at conf _ 2 hs1vt hs1v).2.2 rfl
  rw [openDB_nonfresh conf s ht, hm1]
  exact ⟨rfl, ensures_comments_stay s hct, ensures_versions s⟩

/-- C1 witness: a version-2 store holding the spec's §8 forest (root 1;
children 2, 3; 4 under 2; 5 under 4) is not flattened — open fails with the
AttributeError and the parent column is untouched. -/
theorem c1_flatten_step_crashes_witness :
    (openDB ⟨none⟩
        ⟨true, true, true, true, [⟨10, "u", "t"⟩],
         [⟨1, 10, none, "v"⟩, ⟨2, 10, some 1, "v"⟩, ⟨3, 10, some 1, "v"⟩,
          ⟨4, 10, some 2, "v"⟩, ⟨5, 10, some 4, "v"⟩],
         [⟨"session-key", "x"⟩], [2], false⟩).err =
      some (DbErr.attributeError "fetchall") ∧
    (openDB ⟨none⟩
        ⟨true, true, true, true, [⟨10, "u", "t"⟩],
         [⟨1, 10, none, "v"⟩, ⟨2, 10, some 1, "v"⟩, ⟨3, 10, some 1, "v"⟩,
          ⟨4, 10, some 2, "v"⟩, ⟨5, 10, some 4, "v"⟩],
         [⟨"session-key", "x"⟩], [2], false⟩).db.comments =
      [⟨1, 10, none, "v"⟩, ⟨2, 10, some 1, "v"⟩, ⟨3, 10, some 1, "v"⟩,
       ⟨4, 10, some 2, "v"⟩, ⟨5, 10, some 4, "v"⟩] := by
  obtain ⟨-, -, h⟩ :=
    c1_flatten_step_crashes ⟨none⟩
      ⟨true, true, true, true, [⟨10, "u", "t"⟩],
       [⟨1, 10, none, "v"⟩, ⟨2, 10, some 1, "v"⟩, ⟨3, 10, some 1, "v"⟩,
        ⟨4, 10, some 2, "v"⟩, ⟨5, 10, some 4, "v"⟩],
       [⟨"session-key", "x"⟩], [2], false⟩ rfl rfl
  exact ⟨(h rfl rfl).1, (h rfl rfl).2.1⟩

/-! ## Claim C5 — the per-root worklist traversal, evaluated -/

/-- C5 (the code, evaluated): the worklist traversal (`while ids:`, lines
127–130) is unreachable.  The version-2 block raises `AttributeError` at
line 120 — chaining `.fetchall()` on psycopg2's `None` — before the loop is
ever entered (and had it been reached, line 128's
`first(con.cursor().execute(...))` would raise `TypeError` on `None`; the
loop also keeps no seen-set).  So from a version-2 store — whatever the
comment data, a malformed cyclic parent graph included — no traversal step
executes: `migrate` aborts immediately with the error, applying nothing and
leaving the store byte-identical. -/
theorem c5_traversal_unreachable (conf : Config) (s : DB)
    (hvt : s.versionsT = true) (hv : listMax s.versions = some 2) :
    step2 s = Except.error (DbErr.attributeError "fetchall") ∧
    migrate conf 3 s = ⟨s, [], some (DbErr.attributeError "fetchall")⟩ ∧
    (migrate conf 3 s).applied = [] :=
  ⟨rfl, (migrate_crash_at conf s 2 hvt hv).2.2 rfl,
   by rw [(migrate_crash_at conf s 2 hvt hv).2.2 rfl]⟩

/-- C5 witness: even on a version-2 store whose parent graph is a cycle
(2 ↔ 3), there is no infinite loop and no traversal — just the immediate
AttributeError, with the store unchanged. -/
theorem c5_traversal_unreachable_witness :
    migrate ⟨none⟩ 3
        ⟨true, true, true, true, [⟨10, "u", "t"⟩],
         [⟨1, 10, none, "v"⟩, ⟨2, 10, some 3, "v"⟩, ⟨3, 10, some 2, "v"⟩],
         [⟨"session-key", "x"⟩], [2], false⟩ =
      ⟨⟨true, true, true, true, [⟨10, "u", "t"⟩],
        [⟨1, 10, none, "v"⟩, ⟨2, 10, some 3, "v"⟩, ⟨3, 10, some 2, "v"⟩],
        [⟨"session-key", "x"⟩], [2], false⟩, [],
       some (DbErr.attributeError "fetchall")⟩ :=
  (c5_traversal_unreachable ⟨none⟩
    ⟨true, true, true, true, [⟨10, "u", "t"⟩],
     [⟨1, 10, none, "v"⟩, ⟨2, 10, some 3, "v"⟩, ⟨3, 10, some 2, "v"⟩],
     [⟨"session-key", "x"⟩], [2], false⟩ rfl rfl).2.1

end IssoPsql
